import Mathlib

/-
Verification development for the Sloth lexical analyzer (src/lexer.c,
src/lexer.h).  The C code is shallowly embedded: the input stream is a
list of character codes (as Int, so that the EOF value -1 of fgetc is
representable next to the byte values 0..255), the Lexer structure and
the Token structure are mirrored field by field, and every function of
lexer.c that the claims touch is translated statement by statement.

Of particular importance is the line

    if(lexer->current_char = END) { lexer->end_of_file = true; }

inside advance: a single equals sign, so the enum constant END (value 6)
is ASSIGNED to current_char and the value of the condition is 6, which
is nonzero, hence the branch is always taken.  The embedding reproduces
this literally.  Likewise init assigns the result of fgetc to
current_char without checking it, so an empty source leaves end_of_file
false and current_char = -1.
-/

/-- Token kinds of lexer.h (enum TokenType, in declaration order). -/
inductive TokenType where
  | IDENTIFIER
  | NUMBER
  | STRING
  | KEYWORD
  | OPERATOR
  | SEPARATOR
  | END
  | INVALID
deriving DecidableEq, Repr

/-- Numeric value of each enum constant of TokenType, as C assigns them
(consecutively from 0). -/
def TokenType.val : TokenType → Int
  | .IDENTIFIER => 0
  | .NUMBER => 1
  | .STRING => 2
  | .KEYWORD => 3
  | .OPERATOR => 4
  | .SEPARATOR => 5
  | .END => 6
  | .INVALID => 7

/-- Token structure of lexer.h: kind, text (list of character codes),
line and column. -/
structure Token where
  type : TokenType
  token : List Int
  line : Nat
  column : Nat
deriving DecidableEq, Repr

/-- Lexer structure of lexer.h.  The FILE pointer is modelled by the
list of characters not yet read (rest); current_char holds the last
value fgetc delivered, converted to char. -/
structure Lexer where
  rest : List Int
  current_line : Nat
  current_column : Nat
  current_char : Int
  end_of_file : Bool
deriving DecidableEq, Repr

/-- Model of fgetc on the remaining stream: the next character and the
stream after it, or EOF (-1) with an unchanged empty stream. -/
def fgetc (l : List Int) : Int × List Int :=
  match l with
  | [] => (-1, [])
  | c :: rest => (c, rest)

/-- Character codes of a Lean string literal, to write C string
literals readably. -/
def strLit (s : String) : List Int :=
  s.toList.map (fun c => (c.toNat : Int))

/-- Model of isspace from ctype.h in the C locale: space, horizontal
tab, line feed, vertical tab, form feed, carriage return. -/
def isspace_c (c : Int) : Bool :=
  c = 32 || (9 ≤ c && c ≤ 13)

/-- Model of isdigit from ctype.h: ASCII digits 0 to 9. -/
def isdigit_c (c : Int) : Bool :=
  48 ≤ c && c ≤ 57

/-- Model of isalpha from ctype.h in the C locale: ASCII letters. -/
def isalpha_c (c : Int) : Bool :=
  (65 ≤ c && c ≤ 90) || (97 ≤ c && c ≤ 122)

/-- Model of isalnum from ctype.h: letter or digit. -/
def isalnum_c (c : Int) : Bool :=
  isalpha_c c || isdigit_c c

/-- Translation of is_valid_identifier_char: letter, digit or
underscore (code 95). -/
def is_valid_identifier_char (c : Int) : Bool :=
  isalnum_c c || c == 95

/-- Translation of is_whitespace of lexer.c: space, tab, newline,
carriage return. -/
def is_whitespace (c : Int) : Bool :=
  c == 32 || c == 9 || c == 10 || c == 13

/-- Translation of is_digit of lexer.c. -/
def is_digit (c : Int) : Bool :=
  48 ≤ c && c ≤ 57

/-- Translation of is_letter of lexer.c. -/
def is_letter (c : Int) : Bool :=
  (97 ≤ c && c ≤ 122) || (65 ≤ c && c ≤ 90)

/-- The ten characters of the operator string literal of is_operator. -/
def operator_chars : List Int := strLit "+-*/=<>!&|"

/-- Model of strchr(str, c) != NULL: the search includes the
terminating NUL of the string, which strchr treats as part of it. -/
def strchr_mem (str : List Int) (c : Int) : Bool :=
  (str ++ [0]).contains c

/-- Translation of is_operator of lexer.c: membership via strchr in the
string of the ten operator characters. -/
def is_operator (c : Int) : Bool :=
  strchr_mem operator_chars c

/-- The keyword array of is_keyword, without its NULL terminator. -/
def keywords : List (List Int) :=
  [strLit "if", strLit "else", strLit "while", strLit "return",
   strLit "int", strLit "float"]

/-- Translation of is_keyword of lexer.c: strcmp equality against each
entry of the keyword array. -/
def is_keyword (t : List Int) : Bool :=
  keywords.any (fun k => t == k)

/-- Translation of init of lexer.c: line 1, column 0, end_of_file
false, then one unchecked fgetc into current_char. -/
def init (input : List Int) : Lexer :=
  let r := fgetc input
  { rest := r.2, current_line := 1, current_column := 0,
    current_char := r.1, end_of_file := false }

/-- Translation of advance of lexer.c.  After the position update and
the fgetc, the source tests the condition current_char = END with a
single equals sign: END (value 6) is assigned to current_char, the
value of the condition is that 6, nonzero, so end_of_file is set. -/
def advance (s : Lexer) : Lexer :=
  let s1 :=
    if s.current_char = 10 then
      { s with current_line := s.current_line + 1, current_column := 0 }
    else
      { s with current_column := s.current_column + 1 }
  let r := fgetc s1.rest
  let s2 := { s1 with current_char := r.1, rest := r.2 }
  let s3 := { s2 with current_char := TokenType.END.val }
  if s3.current_char ≠ 0 then { s3 with end_of_file := true } else s3

theorem advance_current_char (s : Lexer) :
    (advance s).current_char = 6 := by
  unfold advance
  split <;> simp [TokenType.val]

theorem advance_end_of_file (s : Lexer) :
    (advance s).end_of_file = true := by
  unfold advance
  split <;> simp [TokenType.val]

/-- Translation of skip of lexer.c: advance while the current character
is whitespace and end_of_file is not set. -/
def skip (s : Lexer) : Lexer :=
  if h : isspace_c s.current_char && !s.end_of_file then
    skip (advance s)
  else s
termination_by (if s.end_of_file then 0 else 1)
decreasing_by
  have h2 : s.end_of_file = false := by
    rcases Bool.and_eq_true _ _ |>.mp h with ⟨_, h3⟩
    simpa using h3
  simp [advance_end_of_file, h2]

/-- The identifier accumulation loop of get_next: while the current
character is valid in an identifier, append it to the buffer when the
buffer still has room (index < sizeof(buf) - 1 = 255) and advance. -/
def scan_ident (s : Lexer) (buf : List Int) : List Int × Lexer :=
  if h : is_valid_identifier_char s.current_char then
    scan_ident (advance s)
      (if buf.length < 255 then buf ++ [s.current_char] else buf)
  else (buf, s)
termination_by (if is_valid_identifier_char s.current_char then 1 else 0)
decreasing_by
  simp only [advance_current_char, h]
  decide

/-- The digit accumulation loop of get_next: while the current
character is a digit, append it under the same buffer bound and
advance. -/
def scan_digit (s : Lexer) (buf : List Int) : List Int × Lexer :=
  if h : isdigit_c s.current_char then
    scan_digit (advance s)
      (if buf.length < 255 then buf ++ [s.current_char] else buf)
  else (buf, s)
termination_by (if isdigit_c s.current_char then 1 else 0)
decreasing_by
  simp only [advance_current_char, h]
  decide

/-- Translation of get_next of lexer.c: skip whitespace, then dispatch
on end_of_file, identifier start, digit, operator, and the invalid
catch-all, each branch building its Token exactly as the source does. -/
def get_next (s0 : Lexer) : Token × Lexer :=
  let s := skip s0
  if s.end_of_file then
    ({ type := TokenType.END, token := strLit "EOF",
       line := s.current_line, column := s.current_column }, s)
  else if isalpha_c s.current_char || s.current_char == 95 then
    let start := s.current_column
    let r := scan_ident s []
    ({ type := if is_keyword r.1 then TokenType.KEYWORD else TokenType.IDENTIFIER,
       token := r.1, line := r.2.current_line, column := start }, r.2)
  else if isdigit_c s.current_char then
    let start := s.current_column
    let r := scan_digit s []
    ({ type := if is_keyword r.1 then TokenType.KEYWORD else TokenType.IDENTIFIER,
       token := r.1, line := r.2.current_line, column := start }, r.2)
  else if is_operator s.current_char then
    let op := s.current_char
    let start := s.current_column
    let s1 := advance s
    ({ type := TokenType.OPERATOR, token := [op],
       line := s1.current_line, column := start }, s1)
  else
    let t : Token :=
      { type := TokenType.INVALID, token := [s.current_char],
        line := s.current_line, column := s.current_column }
    (t, advance s)

theorem isspace_c_six : isspace_c 6 = false := by decide

theorem ivic_six : is_valid_identifier_char 6 = false := by decide

theorem isdigit_c_six : isdigit_c 6 = false := by decide

/-- The whitespace loop runs at most one iteration, because advance
always sets end_of_file (the assignment bug): skip is an if, not a
while, in effect. -/
theorem skip_eq (s : Lexer) :
    skip s = if isspace_c s.current_char && !s.end_of_file then advance s else s := by
  rw [skip]
  split
  · rw [skip]
    simp [advance_end_of_file]
  · simp_all

/-- The identifier loop runs at most one iteration, because advance
always sets current_char to 6, which is not valid in an identifier. -/
theorem scan_ident_eq (s : Lexer) (buf : List Int) :
    scan_ident s buf =
      if is_valid_identifier_char s.current_char then
        ((if buf.length < 255 then buf ++ [s.current_char] else buf), advance s)
      else (buf, s) := by
  rw [scan_ident]
  split
  · rw [scan_ident]
    simp_all [advance_current_char, ivic_six]
  · simp_all

/-- The digit loop runs at most one iteration, for the same reason. -/
theorem scan_digit_eq (s : Lexer) (buf : List Int) :
    scan_digit s buf =
      if isdigit_c s.current_char then
        ((if buf.length < 255 then buf ++ [s.current_char] else buf), advance s)
      else (buf, s) := by
  rw [scan_digit]
  split
  · rw [scan_digit]
    simp_all [advance_current_char, isdigit_c_six]
  · simp_all

theorem skip_of_eof (s : Lexer) (h : s.end_of_file = true) : skip s = s := by
  rw [skip_eq]; simp [h]

theorem skip_of_not_space (s : Lexer) (h : isspace_c s.current_char = false) :
    skip s = s := by
  rw [skip_eq]; simp [h]

/-- Fuel-indexed version of the whitespace loop: one unit of fuel per
loop test, none when the fuel runs out while the condition still
holds. -/
def skipF : Nat → Lexer → Option Lexer
  | 0, _ => none
  | n + 1, s =>
    if isspace_c s.current_char && !s.end_of_file then skipF n (advance s)
    else some s

/-- Fuel-indexed version of the identifier accumulation loop. -/
def scan_identF : Nat → Lexer → List Int → Option (List Int × Lexer)
  | 0, _, _ => none
  | n + 1, s, buf =>
    if is_valid_identifier_char s.current_char then
      scan_identF n (advance s)
        (if buf.length < 255 then buf ++ [s.current_char] else buf)
    else some (buf, s)

/-- Fuel-indexed version of the digit accumulation loop. -/
def scan_digitF : Nat → Lexer → List Int → Option (List Int × Lexer)
  | 0, _, _ => none
  | n + 1, s, buf =>
    if isdigit_c s.current_char then
      scan_digitF n (advance s)
        (if buf.length < 255 then buf ++ [s.current_char] else buf)
    else some (buf, s)

/-- Fuel-indexed version of get_next: each of its three loops gets the
given amount of fuel; none is returned when any loop fails to finish
within it. -/
def get_nextF (fuel : Nat) (s0 : Lexer) : Option (Token × Lexer) :=
  match skipF fuel s0 with
  | none => none
  | some s =>
    if s.end_of_file then
      some ({ type := TokenType.END, token := strLit "EOF",
              line := s.current_line, column := s.current_column }, s)
    else if isalpha_c s.current_char || s.current_char == 95 then
      match scan_identF fuel s [] with
      | none => none
      | some r =>
        some ({ type := if is_keyword r.1 then TokenType.KEYWORD else TokenType.IDENTIFIER,
                token := r.1, line := r.2.current_line,
                column := s.current_column }, r.2)
    else if isdigit_c s.current_char then
      match scan_digitF fuel s [] with
      | none => none
      | some r =>
        some ({ type := if is_keyword r.1 then TokenType.KEYWORD else TokenType.IDENTIFIER,
                token := r.1, line := r.2.current_line,
                column := s.current_column }, r.2)
    else if is_operator s.current_char then
      some ({ type := TokenType.OPERATOR, token := [s.current_char],
              line := (advance s).current_line,
              column := s.current_column }, advance s)
    else
      some ({ type := TokenType.INVALID, token := [s.current_char],
              line := s.current_line, column := s.current_column }, advance s)

theorem skipF_eq_skip (n : Nat) (s : Lexer) (h : 2 ≤ n) :
    skipF n s = some (skip s) := by
  obtain ⟨m, rfl⟩ : ∃ m, n = m + 2 := ⟨n - 2, by omega⟩
  rw [skip_eq]
  by_cases hc : (isspace_c s.current_char && !s.end_of_file) = true
  · simp [skipF, hc, advance_end_of_file]
  · simp [skipF, hc]

theorem scan_identF_eq (n : Nat) (s : Lexer) (buf : List Int) (h : 2 ≤ n) :
    scan_identF n s buf = some (scan_ident s buf) := by
  obtain ⟨m, rfl⟩ : ∃ m, n = m + 2 := ⟨n - 2, by omega⟩
  rw [scan_ident_eq]
  by_cases hc : is_valid_identifier_char s.current_char = true
  · simp [scan_identF, hc, advance_current_char, ivic_six]
  · simp [scan_identF, hc]

theorem scan_digitF_eq (n : Nat) (s : Lexer) (buf : List Int) (h : 2 ≤ n) :
    scan_digitF n s buf = some (scan_digit s buf) := by
  obtain ⟨m, rfl⟩ : ∃ m, n = m + 2 := ⟨n - 2, by omega⟩
  rw [scan_digit_eq]
  by_cases hc : isdigit_c s.current_char = true
  · simp [scan_digitF, hc, advance_current_char, isdigit_c_six]
  · simp [scan_digitF, hc]

theorem digit_not_space (c : Int) (h : isdigit_c c = true) :
    isspace_c c = false := by
  simp [isdigit_c] at h
  simp [isspace_c]
  omega

theorem digit_not_ident_start (c : Int) (h : isdigit_c c = true) :
    (isalpha_c c || c == 95) = false := by
  simp [isdigit_c] at h
  simp [isalpha_c]
  omega

theorem is_keyword_singleton (c : Int) : is_keyword [c] = false := by
  simp [is_keyword, keywords, strLit]

/-- Claim C1: the spec says advance leaves at_end false and the next
character in the lookahead whenever the stream still has characters.
In the source the condition current_char = END of advance is an
assignment, so advance sets end_of_file to true and the lookahead to
the enum value END (6) on EVERY call, stream exhausted or not. -/
theorem C1_advance_always_sets_end (s : Lexer) :
    (advance s).end_of_file = true ∧ (advance s).current_char = TokenType.END.val :=
  ⟨advance_end_of_file s, advance_current_char s⟩

/-- Witness for C1 at a state whose stream still has a character: after
init on the two character input ab, one character remains, yet advance
reports end of file and a lookahead of 6 instead of the letter b (98). -/
theorem C1_witness :
    (init (strLit "ab")).rest ≠ [] ∧
    (advance (init (strLit "ab"))).end_of_file = true ∧
    (advance (init (strLit "ab"))).current_char = TokenType.END.val ∧
    (advance (init (strLit "ab"))).current_char ≠ 98 :=
  ⟨by decide, (C1_advance_always_sets_end (init (strLit "ab"))).1,
   (C1_advance_always_sets_end (init (strLit "ab"))).2, by decide⟩

/-- Claim C2: for the input a+b the spec expects Identifier a, Operator
plus, Identifier b, End.  The code returns Identifier a at line 1
column 0 and then immediately End: the buggy advance declares end of
file while reading the first token, so the plus sign and the letter b
are never tokenized. -/
theorem C2_a_plus_b_trace :
    (get_next (init (strLit "a+b"))).1.type = TokenType.IDENTIFIER ∧
    (get_next (init (strLit "a+b"))).1.token = strLit "a" ∧
    (get_next (init (strLit "a+b"))).1.line = 1 ∧
    (get_next (init (strLit "a+b"))).1.column = 0 ∧
    (get_next ((get_next (init (strLit "a+b"))).2)).1.type = TokenType.END ∧
    (get_next ((get_next (init (strLit "a+b"))).2)).1.type ≠ TokenType.OPERATOR := by
  refine ⟨?_, ?_, ?_, ?_, ?_, ?_⟩ <;>
  simp [get_next, skip_eq, scan_ident_eq, scan_digit_eq, advance, init, fgetc,
    strLit, isspace_c, isalpha_c, isdigit_c, isalnum_c, is_valid_identifier_char,
    is_keyword, keywords, is_operator, strchr_mem, operator_chars, TokenType.val]

/-- Claim C3: the spec says an identifier lexeme within the truncation
bound is returned in full.  Because the buggy advance ends the scan
after one step, the input foo_bar2 yields the text f, not foo_bar2. -/
theorem C3_identifier_truncated_to_first_char :
    (get_next (init (strLit "foo_bar2 "))).1.type = TokenType.IDENTIFIER ∧
    (get_next (init (strLit "foo_bar2 "))).1.token = strLit "f" ∧
    (get_next (init (strLit "foo_bar2 "))).1.token ≠ strLit "foo_bar2" := by
  refine ⟨?_, ?_, ?_⟩ <;>
  simp [get_next, skip_eq, scan_ident_eq, scan_digit_eq, advance, init, fgetc,
    strLit, isspace_c, isalpha_c, isdigit_c, isalnum_c, is_valid_identifier_char,
    is_keyword, keywords, is_operator, strchr_mem, operator_chars, TokenType.val]

/-- Claim C4: when the next token starts with a digit, the digit branch
captures text and classifies it with the keyword check, so the token
kind is IDENTIFIER (no digit string is a keyword), and no branch of
get_next ever produces the NUMBER kind. -/
theorem C4_digit_scan_never_number :
    (∀ s : Lexer, s.end_of_file = false → isdigit_c s.current_char = true →
      (get_next s).1.type = TokenType.IDENTIFIER) ∧
    (∀ s : Lexer, (get_next s).1.type ≠ TokenType.NUMBER) := by
  constructor
  · intro s h1 h2
    have hskip : skip s = s := skip_of_not_space s (digit_not_space _ h2)
    simp only [get_next, hskip, scan_digit_eq]
    simp [h1, h2, digit_not_ident_start _ h2, is_keyword_singleton]
  · intro s
    simp only [get_next]
    split_ifs <;> simp

/-- Witness for C4: the input 42 yields an IDENTIFIER token and not a
NUMBER token. -/
theorem C4_witness :
    (get_next (init (strLit "42"))).1.type = TokenType.IDENTIFIER ∧
    (get_next (init (strLit "42"))).1.type ≠ TokenType.NUMBER :=
  ⟨C4_digit_scan_never_number.1 (init (strLit "42")) (by decide) (by decide),
   C4_digit_scan_never_number.2 (init (strLit "42"))⟩

/-- Claim C5: get_next is total and never signals failure: at end of
file it returns a token of kind END, and a character that matches none
of the end, identifier, digit, or operator cases yields a single
character INVALID token carrying the position of that character. -/
theorem C5_total_invalid_catch_all :
    (∀ s : Lexer, s.end_of_file = true → (get_next s).1.type = TokenType.END) ∧
    (∀ s : Lexer, s.end_of_file = false → isspace_c s.current_char = false →
      (isalpha_c s.current_char || s.current_char == 95) = false →
      isdigit_c s.current_char = false →
      is_operator s.current_char = false →
      (get_next s).1 = { type := TokenType.INVALID, token := [s.current_char],
                         line := s.current_line, column := s.current_column }) := by
  constructor
  · intro s h
    unfold get_next
    rw [skip_of_eof s h]
    simp [h]
  · intro s h0 h1 h2 h3 h4
    unfold get_next
    rw [skip_of_not_space s h1]
    simp [h0, h2, h3, h4]

/-- Witness for C5: a state at end of file yields END, and the hash
character (35), which is no identifier, digit or operator, yields the
INVALID token recording its position. -/
theorem C5_witness :
    (advance (init (strLit ""))).end_of_file = true ∧
    (get_next (advance (init (strLit "")))).1.type = TokenType.END ∧
    (get_next (init (strLit "#"))).1 =
      { type := TokenType.INVALID, token := [(init (strLit "#")).current_char],
        line := (init (strLit "#")).current_line,
        column := (init (strLit "#")).current_column } :=
  ⟨by decide, C5_total_invalid_catch_all.1 _ (by decide),
   C5_total_invalid_catch_all.2 (init (strLit "#")) (by decide) (by decide)
     (by decide) (by decide) (by decide)⟩

/-- Counterexample to claim C6: on the empty input the first call does
not return END.  init never checks its initial read, so end_of_file is
still false and the lookahead holds the EOF value -1, which falls into
the invalid catch-all: the first token is INVALID, not END. -/
theorem C6_empty_input_cex :
    (get_next (init (strLit ""))).1.type = TokenType.INVALID ∧
    (get_next (init (strLit ""))).1.type ≠ TokenType.END := by
  refine ⟨?_, ?_⟩ <;>
  simp [get_next, skip_eq, scan_ident_eq, scan_digit_eq, advance, init, fgetc,
    strLit, isspace_c, isalpha_c, isdigit_c, isalnum_c, is_valid_identifier_char,
    is_keyword, keywords, is_operator, strchr_mem, operator_chars, TokenType.val]

/-- Claim C6 as amended: for every NONEMPTY input consisting solely of
whitespace characters, the first call to get_next returns a token of
kind END. -/
theorem C6_nonempty_whitespace_ends :
    ∀ l : List Int, l ≠ [] → (∀ c ∈ l, isspace_c c = true) →
    (get_next (init l)).1.type = TokenType.END := by
  intro l hne hws
  cases l with
  | nil => exact absurd rfl hne
  | cons c t =>
    have hc : isspace_c c = true := hws c (List.mem_cons_self c t)
    have h1 : skip (init (c :: t)) = advance (init (c :: t)) := by
      rw [skip_eq]
      simp [init, fgetc, hc]
    simp only [get_next, h1]
    simp [advance_end_of_file]

/-- Witness for the amended C6 at the one character input consisting of
a single space. -/
theorem C6_witness : (get_next (init (strLit " "))).1.type = TokenType.END :=
  C6_nonempty_whitespace_ends (strLit " ") (by decide) (by decide)

/-- Counterexample to claim C7: on the empty source the initial read
does not set at_end.  After init on the empty input, end_of_file is
false and the lookahead holds the raw EOF value -1. -/
theorem C7_empty_init_cex :
    (init (strLit "")).end_of_file = false ∧
    (init (strLit "")).current_char = -1 := by
  decide

/-- Claim C7 as amended: construction sets line to 1, column to 0 and
at_end to false, and performs exactly one character read to populate
the lookahead (the head of the source, or -1 when it is empty); the
read result is never checked, so at_end stays false even on an empty
source. -/
theorem C7_init_state :
    ∀ l : List Int,
      (init l).current_line = 1 ∧ (init l).current_column = 0 ∧
      (init l).end_of_file = false ∧ (init l).current_char = (fgetc l).1 ∧
      (init l).rest = (fgetc l).2 := by
  intro l
  simp [init]

/-- Claim C8: in any state with end_of_file already true, get_next
returns the END token built from the current position and leaves the
state, hence the line and column counters and the unread stream,
completely unchanged. -/
theorem C8_end_is_idempotent :
    ∀ s : Lexer, s.end_of_file = true →
      get_next s = ({ type := TokenType.END, token := strLit "EOF",
                      line := s.current_line, column := s.current_column }, s) := by
  intro s h
  simp only [get_next, skip_of_eof s h]
  simp [h]

/-- Witness for C8 at the concrete end state reached after init on the
empty input followed by one advance. -/
theorem C8_witness :
    (advance (init (strLit ""))).end_of_file = true ∧
    get_next (advance (init (strLit ""))) =
      ({ type := TokenType.END, token := strLit "EOF",
         line := (advance (init (strLit ""))).current_line,
         column := (advance (init (strLit ""))).current_column },
       advance (init (strLit ""))) :=
  ⟨by decide, C8_end_is_idempotent _ (by decide)⟩

/-- Claim C9: get_next terminates on every lexer state: the fuel
indexed variant, which charges one fuel unit per iteration of the
whitespace loop and of each accumulation loop and gives up when the
fuel runs out, already converges to the result of get_next with any
fuel of at least 2. -/
theorem C9_get_next_terminates :
    ∀ (s : Lexer) (fuel : Nat), 2 ≤ fuel → get_nextF fuel s = some (get_next s) := by
  intro s fuel h
  unfold get_nextF
  rw [skipF_eq_skip fuel s h]
  simp only [get_next]
  by_cases h1 : (skip s).end_of_file = true
  · simp [h1]
  · simp only [Bool.not_eq_true] at h1
    by_cases h2 : (isalpha_c (skip s).current_char || (skip s).current_char == 95) = true
    · simp [h1, h2, scan_identF_eq fuel _ [] h]
    · by_cases h3 : isdigit_c (skip s).current_char = true
      · simp [h1, h2, h3, scan_digitF_eq fuel _ [] h]
      · by_cases h4 : is_operator (skip s).current_char = true
        · simp [h1, h2, h3, h4]
        · simp [h1, h2, h3, h4]

/-- Witness for C9: with fuel 2 the fuel indexed scanner already agrees
with get_next on the concrete input a+b. -/
theorem C9_witness :
    get_nextF 2 (init (strLit "a+b")) = some (get_next (init (strLit "a+b"))) :=
  C9_get_next_terminates (init (strLit "a+b")) 2 (by decide)

/-- Claim C10: is_operator goes through strchr, whose search includes
the terminating NUL of the operator string, so the NUL character (code
0) is accepted as an operator; every other character is accepted
exactly when it is one of the ten characters of the string. -/
theorem C10_is_operator_matches_nul :
    is_operator 0 = true ∧
    ∀ c : Int, c ≠ 0 →
      (is_operator c = true ↔
        (c = 43 ∨ c = 45 ∨ c = 42 ∨ c = 47 ∨ c = 61 ∨ c = 60 ∨ c = 62 ∨
         c = 33 ∨ c = 38 ∨ c = 124)) := by
  constructor
  · decide
  · intro c hc
    simp [is_operator, strchr_mem, operator_chars, strLit, List.contains]
    tauto

/-- Witness for C10: the NUL character and the plus sign are both
accepted by is_operator. -/
theorem C10_witness : is_operator 0 = true ∧ is_operator 43 = true :=
  ⟨C10_is_operator_matches_nul.1,
   (C10_is_operator_matches_nul.2 43 (by decide)).mpr (Or.inl rfl)⟩
